import Mathlib

/-!
Shallow embedding of the golf analytics application (src/app.py): the four
loaders, the two-step left-join merge stage with the "Unknown Club" sentinel
fill, and the chart view dispatcher, together with theorems settling the
specification claims.

Conventions of the embedding:
* a pandas DataFrame is a list of rows, in order; a row carries every column
  of its table, with a possibly null value, so a nonempty table has all its
  columns and an empty table (built from an empty data array) has none;
* a JSON null (pandas NaN in an object/merged column) is `Option.none`;
* `merge(..., how="left")` on a key column is modelled row by row: a left row
  yields one output row per right row with an equal key, in right-table
  order, and pandas documents that null keys are matched against each other,
  so a null left key matches exactly the null-keyed right rows; a left row
  with no equal-keyed right row yields exactly one output row with null
  right-hand columns;
* a column projection or column access on a column-less empty table raises
  KeyError, so the yards derivation and the merge stage are partial;
* numbers stored as float64 are Lean `Float` (IEEE binary64 in both).
-/

/-- A record of the Shot table as parsed from Golf-SHOT.json, before the
derived yards column is added. -/
structure Shot where
  clubId : Option Int
  lie : String
  meters : Float
  holeNumber : Int
deriving Repr

/-- A Shot row after the loader stores the derived yards column. -/
structure ShotRow where
  clubId : Option Int
  lie : String
  meters : Float
  holeNumber : Int
  yards : Float
deriving Repr

/-- The Shot loader's derivation step: shot_data["yards"] = shot_data["meters"] * 1.09361,
stored as a column (one float64 multiplication, no rounding). -/
def addYards (s : Shot) : ShotRow :=
  { clubId := s.clubId, lie := s.lie, meters := s.meters,
    holeNumber := s.holeNumber, yards := s.meters * 1.09361 }

/-- A record of the Club table after the loader's rename, projected onto the
columns the merge uses: clubId, clubTypeId, shaftLength, flexTypeId. -/
structure Club where
  clubId : Option Int
  clubTypeId : Option Int
  shaftLength : Option Float
  flexTypeId : Option Int
deriving Repr

/-- A record of the ClubType table after the loader's rename, projected onto
the columns the merge uses: clubTypeId, name, loftAngle. -/
structure ClubType where
  clubTypeId : Option Int
  name : Option String
  loftAngle : Option Float
deriving Repr

/-- A record of the Course table: courseId, courseName. -/
structure Course where
  courseId : Int
  courseName : String
deriving Repr, DecidableEq

/-- A row of merged_shot_data after the first merge (Shot left-joined with the
projection of Club on clubId). -/
structure Merged1 where
  clubId : Option Int
  lie : String
  meters : Float
  holeNumber : Int
  yards : Float
  clubTypeId : Option Int
  shaftLength : Option Float
  flexTypeId : Option Int
deriving Repr

/-- A row of merged_shot_data after the second merge (with the projection of
ClubType on clubTypeId); name is still nullable until the fillna step. -/
structure MergedShot where
  clubId : Option Int
  lie : String
  meters : Float
  holeNumber : Int
  yards : Float
  clubTypeId : Option Int
  shaftLength : Option Float
  flexTypeId : Option Int
  name : Option String
  loftAngle : Option Float
deriving Repr

/-- The Club rows whose clubId equals the given (possibly null) key. Pandas
merge matches null keys against each other, so a null key matches exactly the
null-keyed Club rows. -/
def clubMatches (k : Option Int) (clubs : List Club) : List Club :=
  clubs.filter (fun c => decide (c.clubId = k))

/-- One left row of merge(club_data[[clubId, clubTypeId, shaftLength, flexTypeId]],
on=clubId, how=left): unmatched gives one null-filled row, matched gives one
row per matching Club row in order. -/
def joinClubRow (s : ShotRow) (clubs : List Club) : List Merged1 :=
  match clubMatches s.clubId clubs with
  | [] => [{ clubId := s.clubId, lie := s.lie, meters := s.meters,
             holeNumber := s.holeNumber, yards := s.yards,
             clubTypeId := none, shaftLength := none, flexTypeId := none }]
  | ms => ms.map (fun c =>
      { clubId := s.clubId, lie := s.lie, meters := s.meters,
        holeNumber := s.holeNumber, yards := s.yards,
        clubTypeId := c.clubTypeId, shaftLength := c.shaftLength,
        flexTypeId := c.flexTypeId })

/-- The first merge over the whole Shot table, preserving left order. -/
def merge1 (shots : List ShotRow) (clubs : List Club) : List Merged1 :=
  shots.flatMap (fun s => joinClubRow s clubs)

/-- The ClubType rows whose clubTypeId equals the given (possibly null) key,
under the same pandas rule: a null key (e.g. the null clubTypeId of a shot
whose clubId matched no Club) matches exactly the null-keyed ClubType rows. -/
def ctMatches (k : Option Int) (cts : List ClubType) : List ClubType :=
  cts.filter (fun t => decide (t.clubTypeId = k))

/-- One left row of merge(club_types_data[[clubTypeId, name, loftAngle]],
on=clubTypeId, how=left). -/
def joinTypeRow (m : Merged1) (cts : List ClubType) : List MergedShot :=
  match ctMatches m.clubTypeId cts with
  | [] => [{ clubId := m.clubId, lie := m.lie, meters := m.meters,
             holeNumber := m.holeNumber, yards := m.yards,
             clubTypeId := m.clubTypeId, shaftLength := m.shaftLength,
             flexTypeId := m.flexTypeId, name := none, loftAngle := none }]
  | ms => ms.map (fun t =>
      { clubId := m.clubId, lie := m.lie, meters := m.meters,
        holeNumber := m.holeNumber, yards := m.yards,
        clubTypeId := m.clubTypeId, shaftLength := m.shaftLength,
        flexTypeId := m.flexTypeId, name := t.name, loftAngle := t.loftAngle })

/-- The second merge over the whole intermediate table. -/
def merge2 (m1 : List Merged1) (cts : List ClubType) : List MergedShot :=
  m1.flatMap (fun m => joinTypeRow m cts)

/-- The fillna step: merged_shot_data["name"] = merged_shot_data["name"].fillna("Unknown Club").
Only the name column is touched. -/
def fillUnknown (m : MergedShot) : MergedShot :=
  { m with name := some (m.name.getD "Unknown Club") }

/-- The successful path of the merge stage: two left-joins then the sentinel
fill. Reached only when both column projections succeed. -/
def mergePipeline (shots : List Shot) (clubs : List Club) (cts : List ClubType) :
    List MergedShot :=
  (merge2 (merge1 (shots.map addYards) clubs) cts).map fillUnknown

/-- The whole merge stage of load_data. The projections
club_data[[clubId, clubTypeId, shaftLength, flexTypeId]] and
club_types_data[[clubTypeId, name, loftAngle]] raise KeyError on a
column-less empty table, so the stage completes only when both right tables
are nonempty; none models the raised KeyError. -/
def mergeStage (shots : List Shot) (clubs : List Club) (cts : List ClubType) :
    Option (List MergedShot) :=
  if clubs.isEmpty || cts.isEmpty then none
  else some (mergePipeline shots clubs cts)

/-- Projection of a merged row back onto its Shot columns. -/
def MergedShot.toShotRow (m : MergedShot) : ShotRow :=
  { clubId := m.clubId, lie := m.lie, meters := m.meters,
    holeNumber := m.holeNumber, yards := m.yards }

/-- Projection of an intermediate merged row back onto its Shot columns. -/
def Merged1.toShotRow (m : Merged1) : ShotRow :=
  { clubId := m.clubId, lie := m.lie, meters := m.meters,
    holeNumber := m.holeNumber, yards := m.yards }

/-! Raw-record view of the Club and ClubType loaders.  A parsed JSON record is
an ordered association list from column label to value (values are opaque
here); DataFrame.rename with a one-entry columns mapping relabels exactly the
column whose label equals the mapped source label. -/

/-- DataFrame.rename(columns = one mapping old to new) on a single record:
every column labelled old is relabelled new, all other labels are kept. -/
def renameCol (old nw : String) (r : List (String × α)) : List (String × α) :=
  r.map (fun p => (if p.1 = old then nw else p.1, p.2))

/-- The Club loader's rename step: club_data.rename(columns = id to clubId). -/
def clubRename (r : List (String × α)) : List (String × α) :=
  renameCol "id" "clubId" r

/-- The ClubType loader's rename step:
club_types_data.rename(columns = value to clubTypeId). -/
def clubTypeRename (r : List (String × α)) : List (String × α) :=
  renameCol "value" "clubTypeId" r

/-! The Course loader.  Its input is the data array of Golf-COURSE.json: a list
of JSON objects, each an ordered association list of key-value string pairs.
The Python loop appends one record per key-value pair of each object, parsing
the key with int(); an unparseable key raises, which the surrounding
try-except turns into a failed load, modelled as none. -/

/-- Digit accumulation for the decimal integer parser. -/
def parseDigitsAux : List Char → Nat → Option Nat
  | [], acc => some acc
  | c :: cs, acc =>
    if c.isDigit then parseDigitsAux cs (acc * 10 + (c.toNat - 48)) else none

/-- The Python builtin int() applied to a string key, on the shapes relevant
here: an optional leading minus sign followed by decimal digits yields the
value; the empty string or any non-digit character raises, modelled as none. -/
def pyInt (s : String) : Option Int :=
  match s.data with
  | [] => none
  | '-' :: cs =>
    if cs.isEmpty then none else (parseDigitsAux cs 0).map (fun n => -(n : Int))
  | cs => (parseDigitsAux cs 0).map (fun n => (n : Int))

/-- One iteration of the inner loop: course_list.append with courseId = int(id)
and courseName = name; none models the int() exception. -/
def parsePair (p : String × String) : Option Course :=
  (pyInt p.1).map (fun i => { courseId := i, courseName := p.2 })

/-- The course_list accumulation over a flattened sequence of key-value pairs:
the first unparseable key fails the whole load. -/
def courseList : List (String × String) → Option (List Course)
  | [] => some []
  | p :: rest =>
    match parsePair p, courseList rest with
    | some c, some cs => some (c :: cs)
    | _, _ => none

/-- The Course loader over the parsed data array: the nested for-loops visit
every key-value pair of every entry in order. -/
def courseLoad (entries : List (List (String × String))) : Option (List Course) :=
  courseList entries.flatten

/-! load_data: the module-level tables and the single try-except around all
four file loads and the merge.  The state is kept exactly as the program's
variables stand when an exception is raised: each variable holds the last
value assigned to it before the failing line. -/

/-- The shot_data variable: the raw assigned rows, and the derived yards
column once line 53 has run (stored, one value per row, in row order); a
frame on which the yards derivation failed has yardsCol none. -/
structure ShotTable where
  rows : List Shot
  yardsCol : Option (List Float)
deriving Repr

/-- The merged_shot_data variable.  It is assigned twice: the first merge
result at line 59, overwritten by the second merge result at line 64, then
the fill at line 70.  If the second projection raises, the variable keeps the
first merge's rows (which lack the name and loftAngle columns); if the first
projection raises, it keeps its initial empty value. -/
inductive MergedTable where
  | empty
  | firstOnly (rows : List Merged1)
  | full (rows : List MergedShot)
deriving Repr

/-- Outcome of the Shot file steps at lines 50-51, before the yards line:
openFail models FileNotFoundError / JSONDecodeError / a missing data key, so
shot_data keeps its prior empty value; badMeters rows models a data array
that was parsed and assigned to shot_data but whose frame has no usable
numeric meters column (records lacking a numeric meters entry), so line 53
raises with shot_data already populated; ok rows is a well-typed parse. -/
inductive ShotLoad where
  | openFail
  | badMeters (rows : List Shot)
  | ok (rows : List Shot)

/-- The five module-level tables of app.py; each starts as an empty DataFrame. -/
structure AppState where
  club_data : List Club
  club_types_data : List ClubType
  course_data : List Course
  shot_data : ShotTable
  merged_shot_data : MergedTable
deriving Repr

/-- load_data.  Each Option argument is the outcome of opening and
JSON-parsing one source file into its (renamed, typed) records: none models
FileNotFoundError or JSONDecodeError or a shape error at that step; the Shot
file's outcome is a ShotLoad.  The body is one try block: the first raise is
caught by the except clauses after the merge, every variable keeps the value
it held at that point, and the function always returns (the process is not
aborted).  Failure points in order: each file's open/parse; int() inside the
Course loop; the yards line (KeyError when the frame has no meters column, in
particular when the data array is empty); the first projection at line 60
(KeyError when club_data is a column-less empty frame); the second projection
at line 65 (likewise for club_types_data, leaving the first merge's result in
merged_shot_data). -/
def load_data (clubF : Option (List Club)) (ctF : Option (List ClubType))
    (courseF : Option (List (List (String × String)))) (shotF : ShotLoad) :
    AppState :=
  match clubF with
  | none => { club_data := [], club_types_data := [], course_data := [],
              shot_data := ⟨[], none⟩, merged_shot_data := .empty }
  | some clubs =>
    match ctF with
    | none => { club_data := clubs, club_types_data := [], course_data := [],
                shot_data := ⟨[], none⟩, merged_shot_data := .empty }
    | some cts =>
      match courseF.bind courseLoad with
      | none => { club_data := clubs, club_types_data := cts, course_data := [],
                  shot_data := ⟨[], none⟩, merged_shot_data := .empty }
      | some courses =>
        match shotF with
        | .openFail =>
          { club_data := clubs, club_types_data := cts, course_data := courses,
            shot_data := ⟨[], none⟩, merged_shot_data := .empty }
        | .badMeters rows =>
          { club_data := clubs, club_types_data := cts, course_data := courses,
            shot_data := ⟨rows, none⟩, merged_shot_data := .empty }
        | .ok rows =>
          if rows.isEmpty then
            { club_data := clubs, club_types_data := cts, course_data := courses,
              shot_data := ⟨rows, none⟩, merged_shot_data := .empty }
          else
            { club_data := clubs, club_types_data := cts, course_data := courses,
              shot_data := ⟨rows, some (rows.map (fun s => s.meters * 1.09361))⟩,
              merged_shot_data :=
                if clubs.isEmpty then .empty
                else if cts.isEmpty then
                  .firstOnly (merge1 (rows.map addYards) clubs)
                else .full (mergePipeline rows clubs cts) }

/-! The chart endpoint show_chart.  The plotting library is a black box: a
figure is represented by the data handed to it (the filtered rows, or the
per-hole counts), and fig.to_json() by keeping that payload. -/

/-- The renderable payload handed to the plotting library for each view. -/
inductive PlotSpec where
  | histogram (rows : List MergedShot) (nbins : Nat)
  | box (rows : List MergedShot)
  | bar (counts : List (Int × Nat))
deriving Repr

/-- The HTTP-level outcome of show_chart: a rendered chart page, or the
fallthrough response with its message and status code. -/
inductive ChartResult where
  | page (chart_title : String) (plot : PlotSpec)
  | notFound (msg : String) (status : Nat)
deriving Repr

/-- The lie values kept by both distance views (putting excluded). -/
def nonPuttingLies : List String := ["TeeBox", "Fairway", "Rough", "Bunker"]

/-- merged_shot_data[merged_shot_data["lie"].isin(["TeeBox", "Fairway", "Rough", "Bunker"])] -/
def filterNonPutting (rows : List MergedShot) : List MergedShot :=
  rows.filter (fun r => decide (r.lie ∈ nonPuttingLies))

/-- merged_shot_data["holeNumber"].value_counts().sort_index(): one count per
distinct holeNumber, ordered ascending by hole. -/
def shotsPerHole (rows : List MergedShot) : List (Int × Nat) :=
  (((rows.map (fun r => r.holeNumber)).dedup).insertionSort (· ≤ ·)).map
    (fun h => (h, (rows.filter (fun r => decide (r.holeNumber = h))).length))

/-- show_chart(chart_name): plot_json is set only in the branch of a known
chart name whose guard not merged_shot_data.empty holds; a falsy plot_json
falls through to the 404 response. -/
def show_chart (chart_name : String) (merged : List MergedShot) : ChartResult :=
  let plot : Option (String × PlotSpec) :=
    if chart_name = "shot_distance_distribution_overall" then
      if merged.isEmpty then none
      else some ("Overall Shot Distance Distribution",
                 .histogram (filterNonPutting merged) 50)
    else if chart_name = "shot_distance_by_lie" then
      if merged.isEmpty then none
      else some ("Shot Distance by Lie Type", .box (filterNonPutting merged))
    else if chart_name = "shots_per_hole" then
      if merged.isEmpty then none
      else some ("Number of Shots Per Hole", .bar (shotsPerHole merged))
    else none
  match plot with
  | some tp => .page tp.1 tp.2
  | none => .notFound "Chart not found or data not available." 404

/-- The rows a distance view hands to the plotting library (empty for a bar
chart or a 404 outcome). -/
def plotRows : ChartResult → List MergedShot
  | .page _ (.histogram rows _) => rows
  | .page _ (.box rows) => rows
  | _ => []

/-! Concrete fixtures used by witnesses and counterexamples. -/

/-- A concrete shot for the yards-derivation witness. -/
def c4shot : Shot :=
  { clubId := some 3, lie := "Fairway", meters := 100.0, holeNumber := 2 }

/-- A concrete merged row for the unknown-chart-name witness. -/
def c10row : MergedShot :=
  { clubId := some 1, lie := "Fairway", meters := 150.0, holeNumber := 7,
    yards := 150.0 * 1.09361, clubTypeId := some 2, shaftLength := some 39.5,
    flexTypeId := some 1, name := some "Iron", loftAngle := some 30.0 }

/-- C4: the Shot loader stores yards equal to meters times the literal factor
1.09361, as one 64-bit floating-point multiplication with no rounding step,
for every record it loads. -/
theorem yards_derivation (shots : List Shot) (s : ShotRow)
    (h : s ∈ shots.map addYards) : s.yards = s.meters * 1.09361 := by
  rcases List.mem_map.mp h with ⟨a, -, rfl⟩
  rfl

/-- Witness for C4 at a concrete shot of 100.0 meters. -/
theorem yards_derivation_witness :
    (addYards c4shot).yards = (addYards c4shot).meters * 1.09361 :=
  yards_derivation [c4shot] (addYards c4shot)
    (List.mem_map.mpr ⟨c4shot, List.mem_cons_self _ _, rfl⟩)

/-- C5: on an input array of single-entry objects whose keys are
string-encoded integers, the Course loader emits one flat record per element,
in input order, with courseId the parsed key and courseName the value. -/
theorem course_loader_single_entry (singles : List (String × String))
    (h : ∀ p ∈ singles, (pyInt p.1).isSome = true) :
    courseLoad (singles.map (fun p => [p])) =
      some (singles.map (fun p =>
        { courseId := (pyInt p.1).getD 0, courseName := p.2 })) := by
  induction singles with
  | nil => rfl
  | cons p rest ih =>
    obtain ⟨v, hv⟩ := Option.isSome_iff_exists.mp (h p (List.mem_cons_self _ _))
    have hr := ih (fun q hq => h q (List.mem_cons_of_mem _ hq))
    simp only [courseLoad, List.map_cons, List.flatten_cons, List.singleton_append] at hr ⊢
    simp [courseList, parsePair, hv, hr]

/-- Witness for C5: the worked example from the data-model description. -/
theorem course_loader_single_entry_witness :
    courseLoad [[("7", "Pebble Creek")], [("12", "Oak Hollow")]] =
      some [{ courseId := 7, courseName := "Pebble Creek" },
            { courseId := 12, courseName := "Oak Hollow" }] := by
  have h := course_loader_single_entry
    [("7", "Pebble Creek"), ("12", "Oak Hollow")] (by decide)
  simpa using h

/-- C8: with an empty merged table each of the three defined views falls
through to the not-found response with status 404 instead of erroring. -/
theorem views_on_empty_table_not_found :
    show_chart "shot_distance_distribution_overall" [] =
        .notFound "Chart not found or data not available." 404 ∧
    show_chart "shot_distance_by_lie" [] =
        .notFound "Chart not found or data not available." 404 ∧
    show_chart "shots_per_hole" [] =
        .notFound "Chart not found or data not available." 404 :=
  ⟨rfl, rfl, rfl⟩

/-- C9: both distance views chart exactly the rows whose lie is one of TeeBox,
Fairway, Rough, Bunker; any other lie value, in particular Green, is excluded
from both. -/
theorem distance_views_lie_filter (merged : List MergedShot) (r : MergedShot) :
    (r ∈ plotRows (show_chart "shot_distance_distribution_overall" merged) ↔
        r ∈ merged ∧ r.lie ∈ nonPuttingLies) ∧
    (r ∈ plotRows (show_chart "shot_distance_by_lie" merged) ↔
        r ∈ merged ∧ r.lie ∈ nonPuttingLies) ∧
    "Green" ∉ nonPuttingLies := by
  refine ⟨?_, ?_, by decide⟩ <;>
    cases merged with
    | nil => simp [show_chart, plotRows]
    | cons a l =>
      simp [show_chart, plotRows, filterNonPutting, List.mem_filter]

/-- C10: a request for any chart name other than the three defined views
yields the not-found response with status 404, for every state of the merged
table. -/
theorem unknown_chart_name_not_found (chart_name : String)
    (merged : List MergedShot)
    (h1 : chart_name ≠ "shot_distance_distribution_overall")
    (h2 : chart_name ≠ "shot_distance_by_lie")
    (h3 : chart_name ≠ "shots_per_hole") :
    show_chart chart_name merged =
      .notFound "Chart not found or data not available." 404 := by
  simp [show_chart, h1, h2, h3]

/-- Witness for C10 at the commented-out chart name and a nonempty table. -/
theorem unknown_chart_name_not_found_witness :
    show_chart "distance_by_club_type" [c10row] =
      .notFound "Chart not found or data not available." 404 :=
  unknown_chart_name_not_found "distance_by_club_type" [c10row]
    (by decide) (by decide) (by decide)

/-! Claim C1: the sentinel fill after the merge. -/

/-- A shot whose club is present but whose club's type is absent. -/
def c1shot : Shot :=
  { clubId := some 1, lie := "Fairway", meters := 180.0, holeNumber := 4 }

/-- The club matched by c1shot; its clubTypeId 5 matches no ClubType row. -/
def c1club : Club :=
  { clubId := some 1, clubTypeId := some 5, shaftLength := some 40.0,
    flexTypeId := some 2 }

/-- A ClubType table that does not contain clubTypeId 5. -/
def c1ct : ClubType :=
  { clubTypeId := some 9, name := some "Driver", loftAngle := some 10.5 }

/-- Counterexample to C1 as stated: a shot whose clubId matches a Club but
whose clubTypeId matches no ClubType gets name "Unknown Club", yet its
shaftLength and flexTypeId carry the matched Club's non-null values instead
of remaining null. -/
theorem sentinel_nonnull_numeric_cex :
    mergeStage [c1shot] [c1club] [c1ct] =
      some [{ clubId := some 1, lie := "Fairway", meters := 180.0,
              holeNumber := 4, yards := 180.0 * 1.09361, clubTypeId := some 5,
              shaftLength := some 40.0, flexTypeId := some 2,
              name := some "Unknown Club", loftAngle := none }] ∧
    (some (40.0 : Float) ≠ (none : Option Float)) :=
  ⟨rfl, by simp⟩

/-- C1 as amended: whenever the merge stage completes, every merged row has a
non-null name; a row the ClubType join leaves unmatched (no ClubType row with
an equal, possibly null, key) gets the sentinel name and a null loftAngle
while keeping its shaftLength and flexTypeId from the first join; a row the
Club join leaves unmatched has all three of clubTypeId, shaftLength and
flexTypeId null.  A null clubTypeId can itself match a null-keyed ClubType
row under the pandas null-matching rule, in which case the row takes that
row's name and loftAngle instead and only a still-null name is
sentinel-filled. -/
theorem sentinel_fill_amended (shots : List Shot) (clubs : List Club)
    (cts : List ClubType) :
    (∀ out, mergeStage shots clubs cts = some out →
      ∀ r ∈ out, r.name.isSome = true) ∧
    (∀ m ∈ merge1 (shots.map addYards) clubs, ctMatches m.clubTypeId cts = [] →
      (joinTypeRow m cts).map fillUnknown =
        [{ clubId := m.clubId, lie := m.lie, meters := m.meters,
           holeNumber := m.holeNumber, yards := m.yards,
           clubTypeId := m.clubTypeId, shaftLength := m.shaftLength,
           flexTypeId := m.flexTypeId, name := some "Unknown Club",
           loftAngle := none }]) ∧
    (∀ s ∈ shots.map addYards, clubMatches s.clubId clubs = [] →
      joinClubRow s clubs =
        [{ clubId := s.clubId, lie := s.lie, meters := s.meters,
           holeNumber := s.holeNumber, yards := s.yards,
           clubTypeId := none, shaftLength := none, flexTypeId := none }]) := by
  refine ⟨?_, ?_, ?_⟩
  · intro out hout
    rw [mergeStage] at hout
    split at hout
    · exact Option.noConfusion hout
    · injection hout with h
      subst h
      intro r hr
      rw [mergePipeline] at hr
      rcases List.mem_map.mp hr with ⟨m, -, rfl⟩
      rfl
  · intro m hmem hm
    simp [joinTypeRow, hm, fillUnknown]
  · intro s hmem hs
    simp [joinClubRow, hs]

/-- A shot whose clubId 99 matches nothing, for the C1 witness. -/
def c1wShot : Shot :=
  { clubId := some 99, lie := "Fairway", meters := 180.0, holeNumber := 4 }

/-- A club unrelated to c1wShot. -/
def c1wClub : Club :=
  { clubId := some 1, clubTypeId := some 1, shaftLength := some 38.0,
    flexTypeId := some 1 }

/-- A club type unrelated to c1wShot. -/
def c1wCT : ClubType :=
  { clubTypeId := some 1, name := some "Iron", loftAngle := some 30.0 }

/-- The merged row produced for c1wShot. -/
def c1wRow : MergedShot :=
  { clubId := some 99, lie := "Fairway", meters := 180.0, holeNumber := 4,
    yards := 180.0 * 1.09361, clubTypeId := none, shaftLength := none,
    flexTypeId := none, name := some "Unknown Club", loftAngle := none }

/-- Witness for the amended C1 at the merge example from the spec: the row of
an unmatched clubId 99 has a non-null name. -/
theorem sentinel_fill_amended_witness : c1wRow.name.isSome = true :=
  (sentinel_fill_amended [c1wShot] [c1wClub] [c1wCT]).1 [c1wRow] rfl c1wRow
    (List.mem_cons_self _ _)

/-! Claim C2: cardinality and order of the merge. -/

/-- A shot whose clubId 1 is duplicated in the Club table below. -/
def c2shot : Shot :=
  { clubId := some 1, lie := "Fairway", meters := 120.0, holeNumber := 3 }

/-- First Club row with the duplicated key 1. -/
def c2clubA : Club :=
  { clubId := some 1, clubTypeId := some 1, shaftLength := some 38.0,
    flexTypeId := some 1 }

/-- Second Club row with the duplicated key 1. -/
def c2clubB : Club :=
  { clubId := some 1, clubTypeId := some 2, shaftLength := some 39.0,
    flexTypeId := some 2 }

/-- A ClubType row matching c2clubA. -/
def c2ct : ClubType :=
  { clubTypeId := some 1, name := some "Iron", loftAngle := some 30.0 }

/-- Counterexample to C2 as stated: with two Club rows sharing clubId 1, one
Shot row yields two merged rows, so the row count is not preserved without a
uniqueness precondition on the right-hand keys. -/
theorem merge_cardinality_cex :
    (mergeStage [c2shot] [c2clubA, c2clubB] [c2ct]).map List.length = some 2 ∧
    ([c2shot] : List Shot).length = 1 :=
  ⟨rfl, rfl⟩

/-- Flat-mapping a per-row function that always yields exactly one row whose
projection is the input row is the identity up to that projection. -/
theorem flatMap_map_of_single {α β : Type} (f : α → List β) (g : β → α)
    (l : List α) (h1 : ∀ a ∈ l, (f a).length = 1)
    (h2 : ∀ a ∈ l, ∀ b ∈ f a, g b = a) :
    (l.flatMap f).map g = l := by
  induction l with
  | nil => rfl
  | cons a t ih =>
    obtain ⟨b, hb⟩ := List.length_eq_one.mp (h1 a (List.mem_cons_self _ _))
    have hg : g b = a :=
      h2 a (List.mem_cons_self _ _) b (hb ▸ List.mem_cons_self _ _)
    have ht := ih (fun x hx => h1 x (List.mem_cons_of_mem _ hx))
      (fun x hx => h2 x (List.mem_cons_of_mem _ hx))
    simp [List.flatMap_cons, hb, hg, ht]

/-- A left-join row against a right table in which every key value — null
keys included — occurs at most once yields exactly one output row. -/
theorem joinClubRow_length_one (s : ShotRow) (clubs : List Club)
    (h : ∀ k : Option Int, (clubMatches k clubs).length ≤ 1) :
    (joinClubRow s clubs).length = 1 := by
  rcases hf : clubMatches s.clubId clubs with - | ⟨c, rest⟩
  · simp [joinClubRow, hf]
  · have hk := h s.clubId
    rw [hf] at hk
    have : rest = [] := by
      cases rest with
      | nil => rfl
      | cons x xs => simp at hk
    subst this
    simp [joinClubRow, hf]

/-- Every output row of a left-join row keeps the left row's Shot columns. -/
theorem joinClubRow_proj (s : ShotRow) (clubs : List Club) :
    ∀ m ∈ joinClubRow s clubs, m.toShotRow = s := by
  intro m hm
  unfold joinClubRow at hm
  rcases hcm : clubMatches s.clubId clubs with - | ⟨c, rest⟩ <;> rw [hcm] at hm
  · rcases List.mem_singleton.mp hm with rfl
    rfl
  · rcases List.mem_map.mp hm with ⟨c', -, rfl⟩
    rfl

/-- Projection of a fully merged row back onto its intermediate columns. -/
def MergedShot.toMerged1 (m : MergedShot) : Merged1 :=
  { clubId := m.clubId, lie := m.lie, meters := m.meters,
    holeNumber := m.holeNumber, yards := m.yards, clubTypeId := m.clubTypeId,
    shaftLength := m.shaftLength, flexTypeId := m.flexTypeId }

/-- The second join also yields exactly one row when every ClubType key
value — null keys included — occurs at most once. -/
theorem joinTypeRow_length_one (m : Merged1) (cts : List ClubType)
    (h : ∀ k : Option Int, (ctMatches k cts).length ≤ 1) :
    (joinTypeRow m cts).length = 1 := by
  rcases hf : ctMatches m.clubTypeId cts with - | ⟨c, rest⟩
  · simp [joinTypeRow, hf]
  · have hk := h m.clubTypeId
    rw [hf] at hk
    have : rest = [] := by
      cases rest with
      | nil => rfl
      | cons x xs => simp at hk
    subst this
    simp [joinTypeRow, hf]

/-- Every output row of the second join keeps the intermediate columns. -/
theorem joinTypeRow_proj (m : Merged1) (cts : List ClubType) :
    ∀ r ∈ joinTypeRow m cts, r.toMerged1 = m := by
  intro r hr
  unfold joinTypeRow at hr
  rcases hcm : ctMatches m.clubTypeId cts with - | ⟨c, rest⟩ <;> rw [hcm] at hr
  · rcases List.mem_singleton.mp hr with rfl
    rfl
  · rcases List.mem_map.mp hr with ⟨c', -, rfl⟩
    rfl

/-- C2 as amended: when the Club and ClubType tables are nonempty (so the two
column projections do not raise and the merge stage completes) and every key
value — null keys included, since pandas matches null keys against each
other — occurs at most once in its right table, the merge stage yields
exactly one row per Shot row, projecting back onto the Shot table in order;
in particular the row counts agree. -/
theorem merge_cardinality_amended (shots : List Shot) (clubs : List Club)
    (cts : List ClubType)
    (hclub : ∀ k : Option Int, (clubMatches k clubs).length ≤ 1)
    (hct : ∀ k : Option Int, (ctMatches k cts).length ≤ 1)
    (out : List MergedShot) (hout : mergeStage shots clubs cts = some out) :
    out.map MergedShot.toShotRow = shots.map addYards ∧
    out.length = shots.length := by
  have hpipe : out = mergePipeline shots clubs cts := by
    rw [mergeStage] at hout
    split at hout
    · exact Option.noConfusion hout
    · exact (Option.some.inj hout).symm
  subst hpipe
  have step2 : (merge2 (merge1 (shots.map addYards) clubs) cts).map
      MergedShot.toMerged1 = merge1 (shots.map addYards) clubs :=
    flatMap_map_of_single _ _ _
      (fun m _ => joinTypeRow_length_one m cts hct)
      (fun m _ => joinTypeRow_proj m cts)
  have step1 : (merge1 (shots.map addYards) clubs).map Merged1.toShotRow =
      shots.map addYards :=
    flatMap_map_of_single _ _ _
      (fun s _ => joinClubRow_length_one s clubs hclub)
      (fun s _ => joinClubRow_proj s clubs)
  have hfill : (mergePipeline shots clubs cts).map MergedShot.toShotRow =
      (merge2 (merge1 (shots.map addYards) clubs) cts).map
        MergedShot.toShotRow := by
    simp only [mergePipeline, List.map_map]
    rfl
  have hsplit : (merge2 (merge1 (shots.map addYards) clubs) cts).map
      MergedShot.toShotRow =
      ((merge2 (merge1 (shots.map addYards) clubs) cts).map
        MergedShot.toMerged1).map Merged1.toShotRow := by
    simp only [List.map_map]
    rfl
  have hmain : (mergePipeline shots clubs cts).map MergedShot.toShotRow =
      shots.map addYards := by
    rw [hfill, hsplit, step2, step1]
  refine ⟨hmain, ?_⟩
  have := congrArg List.length hmain
  simpa using this

/-- A shot for the C2 witness; its clubId 2 matches nothing. -/
def c2wShot : Shot :=
  { clubId := some 2, lie := "Rough", meters := 90.0, holeNumber := 5 }

/-- The single Club row of the C2 witness tables. -/
def c2wClub : Club :=
  { clubId := some 1, clubTypeId := some 1, shaftLength := some 38.0,
    flexTypeId := some 1 }

/-- The single ClubType row of the C2 witness tables. -/
def c2wCT : ClubType :=
  { clubTypeId := some 1, name := some "Iron", loftAngle := some 30.0 }

/-- A filter over a one-row table keeps at most one row. -/
theorem filter_singleton_length_le {α : Type} (p : α → Bool) (a : α) :
    ([a].filter p).length ≤ 1 := by
  by_cases h : p a <;> simp [List.filter, h]

/-- The single merged row the stage produces for c2wShot. -/
def c2wRow : MergedShot :=
  { clubId := some 2, lie := "Rough", meters := 90.0, holeNumber := 5,
    yards := 90.0 * 1.09361, clubTypeId := none, shaftLength := none,
    flexTypeId := none, name := some "Unknown Club", loftAngle := none }

/-- Witness for the amended C2 on concrete nonempty one-row tables with
unique keys. -/
theorem merge_cardinality_amended_witness :
    ([c2wRow] : List MergedShot).map MergedShot.toShotRow =
        [c2wShot].map addYards ∧
    ([c2wRow] : List MergedShot).length = ([c2wShot] : List Shot).length :=
  merge_cardinality_amended [c2wShot] [c2wClub] [c2wCT]
    (fun _ => filter_singleton_length_le _ _)
    (fun _ => filter_singleton_length_le _ _)
    [c2wRow] rfl

/-! Claim C3: error handling of load_data. -/

/-- A club for the C3 fixtures. -/
def c3club : Club :=
  { clubId := some 1, clubTypeId := some 1, shaftLength := some 38.0,
    flexTypeId := some 1 }

/-- A club type for the C3 fixtures. -/
def c3ct : ClubType :=
  { clubTypeId := some 1, name := some "Iron", loftAngle := some 30.0 }

/-- A shot for the C3 fixtures. -/
def c3shot : Shot :=
  { clubId := some 1, lie := "Fairway", meters := 100.0, holeNumber := 1 }

/-- The course-file content for the C3 fixtures. -/
def c3entries : List (List (String × String)) := [[("7", "Pebble Creek")]]

/-- The course table the C3 fixtures load. -/
def c3courses : List Course := [{ courseId := 7, courseName := "Pebble Creek" }]

/-- Counterexample to C3 as stated: when the Club file fails to load, the Shot
table is also left empty even though the Shot file is intact, whereas the same
Shot file yields a loaded row when the Club file succeeds; the later loads do
not take place after an earlier failure. -/
theorem load_isolation_cex :
    (load_data none (some [c3ct]) (some c3entries)
        (.ok [c3shot])).shot_data.rows = [] ∧
    (load_data (some [c3club]) (some [c3ct]) (some c3entries)
        (.ok [c3shot])).shot_data.rows = [c3shot] :=
  ⟨rfl, rfl⟩

/-- C3 as amended: the single try block catches the first raise, every
variable keeps the value it held at that point, and a state is always
returned.  Hence a failure at one file's open/parse step leaves that table
and every later-loaded table (and the merged table) empty while keeping
earlier tables; a Shot file that parses but whose frame has no usable meters
column (including an empty data array) leaves shot_data populated with the
raw rows and no yards column; and even with all four loads succeeded the
merge completes only when Club and ClubType are nonempty — an empty Club
table leaves the merged table empty, an empty ClubType table leaves it
holding only the first join's rows. -/
theorem load_error_prefix_amended (clubs : List Club) (cts : List ClubType)
    (entries : List (List (String × String))) (courses : List Course)
    (rows : List Shot) (hc : courseLoad entries = some courses)
    (hrows : rows ≠ []) (hclubs : clubs ≠ []) (hcts : cts ≠ []) :
    load_data none (some cts) (some entries) (.ok rows) =
      { club_data := [], club_types_data := [], course_data := [],
        shot_data := ⟨[], none⟩, merged_shot_data := .empty } ∧
    load_data (some clubs) none (some entries) (.ok rows) =
      { club_data := clubs, club_types_data := [], course_data := [],
        shot_data := ⟨[], none⟩, merged_shot_data := .empty } ∧
    load_data (some clubs) (some cts) none (.ok rows) =
      { club_data := clubs, club_types_data := cts, course_data := [],
        shot_data := ⟨[], none⟩, merged_shot_data := .empty } ∧
    load_data (some clubs) (some cts) (some entries) .openFail =
      { club_data := clubs, club_types_data := cts, course_data := courses,
        shot_data := ⟨[], none⟩, merged_shot_data := .empty } ∧
    load_data (some clubs) (some cts) (some entries) (.badMeters rows) =
      { club_data := clubs, club_types_data := cts, course_data := courses,
        shot_data := ⟨rows, none⟩, merged_shot_data := .empty } ∧
    load_data (some clubs) (some cts) (some entries) (.ok []) =
      { club_data := clubs, club_types_data := cts, course_data := courses,
        shot_data := ⟨[], none⟩, merged_shot_data := .empty } ∧
    load_data (some []) (some cts) (some entries) (.ok rows) =
      { club_data := [], club_types_data := cts, course_data := courses,
        shot_data := ⟨rows, some (rows.map (fun s => s.meters * 1.09361))⟩,
        merged_shot_data := .empty } ∧
    load_data (some clubs) (some []) (some entries) (.ok rows) =
      { club_data := clubs, club_types_data := [], course_data := courses,
        shot_data := ⟨rows, some (rows.map (fun s => s.meters * 1.09361))⟩,
        merged_shot_data := .firstOnly (merge1 (rows.map addYards) clubs) } ∧
    load_data (some clubs) (some cts) (some entries) (.ok rows) =
      { club_data := clubs, club_types_data := cts, course_data := courses,
        shot_data := ⟨rows, some (rows.map (fun s => s.meters * 1.09361))⟩,
        merged_shot_data := .full (mergePipeline rows clubs cts) } := by
  obtain ⟨r, rtl, rfl⟩ := List.exists_cons_of_ne_nil hrows
  obtain ⟨c, ctl, rfl⟩ := List.exists_cons_of_ne_nil hclubs
  obtain ⟨t, ttl, rfl⟩ := List.exists_cons_of_ne_nil hcts
  refine ⟨rfl, rfl, rfl, ?_, ?_, ?_, ?_, ?_, ?_⟩ <;>
    simp [load_data, Option.bind, hc]

/-- Witness for the amended C3 on the concrete fixtures. -/
theorem load_error_prefix_amended_witness :
    load_data none (some [c3ct]) (some c3entries) (.ok [c3shot]) =
      { club_data := [], club_types_data := [], course_data := [],
        shot_data := ⟨[], none⟩, merged_shot_data := .empty } ∧
    load_data (some [c3club]) none (some c3entries) (.ok [c3shot]) =
      { club_data := [c3club], club_types_data := [], course_data := [],
        shot_data := ⟨[], none⟩, merged_shot_data := .empty } ∧
    load_data (some [c3club]) (some [c3ct]) none (.ok [c3shot]) =
      { club_data := [c3club], club_types_data := [c3ct], course_data := [],
        shot_data := ⟨[], none⟩, merged_shot_data := .empty } ∧
    load_data (some [c3club]) (some [c3ct]) (some c3entries) .openFail =
      { club_data := [c3club], club_types_data := [c3ct],
        course_data := c3courses, shot_data := ⟨[], none⟩,
        merged_shot_data := .empty } ∧
    load_data (some [c3club]) (some [c3ct]) (some c3entries)
        (.badMeters [c3shot]) =
      { club_data := [c3club], club_types_data := [c3ct],
        course_data := c3courses, shot_data := ⟨[c3shot], none⟩,
        merged_shot_data := .empty } ∧
    load_data (some [c3club]) (some [c3ct]) (some c3entries) (.ok []) =
      { club_data := [c3club], club_types_data := [c3ct],
        course_data := c3courses, shot_data := ⟨[], none⟩,
        merged_shot_data := .empty } ∧
    load_data (some []) (some [c3ct]) (some c3entries) (.ok [c3shot]) =
      { club_data := [], club_types_data := [c3ct], course_data := c3courses,
        shot_data := ⟨[c3shot],
          some ([c3shot].map (fun s => s.meters * 1.09361))⟩,
        merged_shot_data := .empty } ∧
    load_data (some [c3club]) (some []) (some c3entries) (.ok [c3shot]) =
      { club_data := [c3club], club_types_data := [], course_data := c3courses,
        shot_data := ⟨[c3shot],
          some ([c3shot].map (fun s => s.meters * 1.09361))⟩,
        merged_shot_data :=
          .firstOnly (merge1 ([c3shot].map addYards) [c3club]) } ∧
    load_data (some [c3club]) (some [c3ct]) (some c3entries) (.ok [c3shot]) =
      { club_data := [c3club], club_types_data := [c3ct],
        course_data := c3courses,
        shot_data := ⟨[c3shot],
          some ([c3shot].map (fun s => s.meters * 1.09361))⟩,
        merged_shot_data := .full (mergePipeline [c3shot] [c3club] [c3ct]) } :=
  load_error_prefix_amended [c3club] [c3ct] c3entries c3courses [c3shot]
    (by decide) (List.cons_ne_nil _ _) (List.cons_ne_nil _ _)
    (List.cons_ne_nil _ _)

/-! Claim C6: the loader renames. -/

/-- Counterexample to C6 as stated: a club record whose key column is labelled
pk rather than id is left untouched by the loader's rename, so no clubId
column is exposed. -/
theorem rename_literal_id_cex :
    clubRename [("pk", (1 : Int))] = [("pk", (1 : Int))] ∧
    "clubId" ∉ (clubRename [("pk", (1 : Int))]).map Prod.fst := by
  exact ⟨rfl, by decide⟩

/-- C6 as amended: the Club loader renames exactly the column labelled id to
clubId and the ClubType loader exactly the column labelled value to
clubTypeId; every column under any other label is passed through unchanged. -/
theorem rename_id_value_amended {α : Type} (r : List (String × α)) (v : α) :
    (("id", v) ∈ r → ("clubId", v) ∈ clubRename r) ∧
    (∀ c, c ≠ "id" → (c, v) ∈ r → (c, v) ∈ clubRename r) ∧
    (("value", v) ∈ r → ("clubTypeId", v) ∈ clubTypeRename r) ∧
    (∀ c, c ≠ "value" → (c, v) ∈ r → (c, v) ∈ clubTypeRename r) := by
  refine ⟨fun h => ?_, fun c hc h => ?_, fun h => ?_, fun c hc h => ?_⟩
  · exact List.mem_map.mpr ⟨("id", v), h, by simp [renameCol]⟩
  · exact List.mem_map.mpr ⟨(c, v), h, by simp [renameCol, hc]⟩
  · exact List.mem_map.mpr ⟨("value", v), h, by simp [renameCol]⟩
  · exact List.mem_map.mpr ⟨(c, v), h, by simp [renameCol, hc]⟩

/-- Witness for the amended C6: the id and value columns are exposed under
their new labels and a loft column keeps its label, on concrete records. -/
theorem rename_id_value_amended_witness :
    ("clubId", (5 : Int)) ∈ clubRename [("id", (5 : Int)), ("loft", 9)] ∧
    ("loft", (9 : Int)) ∈ clubRename [("id", (5 : Int)), ("loft", 9)] ∧
    ("clubTypeId", (7 : Int)) ∈ clubTypeRename [("value", (7 : Int))] :=
  ⟨(rename_id_value_amended [("id", (5 : Int)), ("loft", 9)] 5).1 (by decide),
   (rename_id_value_amended [("id", (5 : Int)), ("loft", 9)] 9).2.1 "loft"
     (by decide) (by decide),
   (rename_id_value_amended [("value", (7 : Int))] 7).2.2.1 (by decide)⟩

/-! Claim C7: Course entries with zero or several keys. -/

/-- Counterexample to C7 as stated: a two-key element silently yields two
records and a zero-key element silently yields none; neither is treated as
malformed input. -/
theorem course_multi_key_silent_cex :
    courseLoad [[("1", "A"), ("2", "B")]] =
      some [{ courseId := 1, courseName := "A" },
            { courseId := 2, courseName := "B" }] ∧
    courseLoad [[]] = some [] :=
  ⟨rfl, rfl⟩

/-- The accumulation over an appended pair sequence splits into the two runs. -/
theorem courseList_append (l1 l2 : List (String × String)) :
    courseList (l1 ++ l2) =
      (courseList l1).bind (fun a => (courseList l2).map (fun b => a ++ b)) := by
  induction l1 with
  | nil =>
    rcases h : courseList l2 with - | cs <;> simp [courseList, Option.bind, h]
  | cons p rest ih =>
    rcases hp : parsePair p with - | c <;>
      rcases h1 : courseList rest with - | cs <;>
        rcases h2 : courseList l2 with - | ds <;>
          simp_all [courseList, List.cons_append, Option.bind]

/-- When every key of a pair run parses, the accumulation succeeds with one
record per pair. -/
theorem courseList_total (l : List (String × String))
    (h : ∀ p ∈ l, (pyInt p.1).isSome = true) :
    ∃ cs, courseList l = some cs ∧ cs.length = l.length := by
  induction l with
  | nil => exact ⟨[], rfl, rfl⟩
  | cons p rest ih =>
    obtain ⟨v, hv⟩ :=
      Option.isSome_iff_exists.mp (h p (List.mem_cons_self _ _))
    obtain ⟨cs, hcs, hlen⟩ :=
      ih (fun q hq => h q (List.mem_cons_of_mem _ hq))
    refine ⟨{ courseId := v, courseName := p.2 } :: cs, ?_, by simp [hlen]⟩
    simp [courseList, parsePair, hv, hcs]

/-- C7 as amended: as long as every key parses as an integer, the Course
loader succeeds and emits exactly one record per key-value pair, so an
element with zero keys silently contributes no record and an element with
several keys contributes one record per key; no malformed-input condition is
raised for such elements. -/
theorem course_per_pair_amended (entries : List (List (String × String)))
    (h : ∀ e ∈ entries, ∀ p ∈ e, (pyInt p.1).isSome = true) :
    ∃ out, courseLoad entries = some out ∧
      out.length = (entries.map List.length).sum := by
  induction entries with
  | nil => exact ⟨[], rfl, rfl⟩
  | cons e rest ih =>
    obtain ⟨cs, hcs, hlen⟩ :=
      courseList_total e (h e (List.mem_cons_self _ _))
    obtain ⟨out, hout, holen⟩ :=
      ih (fun x hx => h x (List.mem_cons_of_mem _ hx))
    refine ⟨cs ++ out, ?_, by simp [hlen, holen]⟩
    have : courseList (e :: rest).flatten = courseList (e ++ rest.flatten) := by
      rw [List.flatten_cons]
    rw [courseLoad, this, courseList_append, hcs]
    rw [courseLoad] at hout
    rw [hout]
    rfl

/-- Witness for the amended C7 at a two-key element followed by a zero-key
element: the load succeeds with two records. -/
theorem course_per_pair_amended_witness :
    ∃ out, courseLoad [[("1", "A"), ("2", "B")], []] = some out ∧
      out.length = 2 :=
  course_per_pair_amended [[("1", "A"), ("2", "B")], []] (by decide)
